import Mathlib

/-!
Verification of the file-forge conversion utility (src/file_forge).

Shallow embedding conventions:
* Python `str` is Lean `String` (a packed `List Char`); operations such as
  `str.lower`, `str.replace(".", "")`, `str.strip` and `str.split("\n\n")`
  are re-implemented over `.data` so that they reduce inside the kernel.
* Python `int` is `ℤ`; Python float division is modelled as exact `ℚ`
  division and `int(x)` as truncation toward zero (`pyInt`).
* Python truthiness (`if x:` where `x` is `Optional[int]` / `Optional[str]`)
  is modelled explicitly: `None`, `0` and `""` are falsy.
* `pathlib.Path` is modelled as a parent string plus stem plus extension
  (extension stored without its leading dot; `Path.suffix` is `"." ++ ext`
  when the extension is nonempty).  `Path.with_suffix(".x")` replaces the
  extension.  The tags appended by `_generate_output_path` never contain a
  dot, so appending a tag to the stem models the f-string name building.
* Fallible code returns `Except String`; external library calls (PIL save,
  PyPDF2 writer, python-docx) are treated as black boxes: we model the data
  handed to them, and for PIL `paste` we model its documented per-channel
  compositing arithmetic (the C `BLEND` / `MULDIV255` macros).
-/

/-- Python truthiness for `Optional[int]`: `None` and `0` are falsy. -/
def pyTruthy (o : Option ℤ) : Bool :=
  match o with
  | some x => decide (x ≠ 0)
  | none => false

/-- Python truthiness for `Optional[str]`: `None` and `""` are falsy. -/
def pyTruthyStr (o : Option String) : Bool :=
  match o with
  | some s => decide (s ≠ "")
  | none => false

/-- Python `int(x)` applied to a float/rational: truncation toward zero. -/
def pyInt (q : ℚ) : ℤ :=
  if 0 ≤ q then ⌊q⌋ else ⌈q⌉

/-- Model of Python `str.lower()` followed by `.replace(".", "")`, the
format-token normalization used by all three converters (ASCII domain). -/
def normalize_format (s : String) : String :=
  ⟨(s.data.map Char.toLower).filter (fun c => c ≠ '.')⟩

/-- Model of `pathlib.Path`: parent directory, stem, and extension without
its leading dot (`Path("d/a.jpg")` is `⟨"d", "a", "jpg"⟩`). -/
structure PyPath where
  parent : String
  stem : String
  ext : String
deriving DecidableEq

/-- Model of `Path.with_suffix("." ++ fmt)` for a dot-free `fmt`: the
extension is replaced (or added when the path had none). -/
def with_suffix (p : PyPath) (fmt : String) : PyPath :=
  { p with ext := fmt }

/-- Embeds `ImageProcessor._generate_output_path`
(src/file_forge/converters/image.py).  Python truthiness governs each
branch: an empty format string, an empty dimension string and a zero angle
all fall through. -/
def generate_output_path (p : PyPath) (output_format : Option String)
    (angle : Option ℤ) (dimension_str : Option String) : PyPath :=
  if pyTruthyStr output_format then
    with_suffix p (output_format.getD "")
  else if pyTruthyStr dimension_str then
    { p with stem := p.stem ++ "_resized_" ++ dimension_str.getD "" }
  else if pyTruthy angle then
    { p with stem := p.stem ++ "_rotated_" ++ toString (angle.getD 0) }
  else
    { p with stem := p.stem ++ "_compressed" }

/-- Embeds the f-string `f"{width or 'auto'}x{height or 'auto'}"` built in
`ImageProcessor.resize`; `width or 'auto'` is Python truthiness again. -/
def resize_dimension_str (width height : Option ℤ) : String :=
  (if pyTruthy width then toString (width.getD 0) else "auto") ++ "x" ++
  (if pyTruthy height then toString (height.getD 0) else "auto")

/-- Default output path of `ImageProcessor.convert` when no explicit output
path is given (image.py line 100): the normalized token is routed through
`_generate_output_path`. -/
def image_default_convert_path (p : PyPath) (fmt : String) : PyPath :=
  generate_output_path p (some (normalize_format fmt)) none none

/-- Default output path of `DocumentProcessor.convert_document` when no
explicit output path is given (document.py line 82):
`input_path.with_suffix(f".{output_format}")` on the normalized token. -/
def doc_default_convert_path (p : PyPath) (fmt : String) : PyPath :=
  with_suffix p (normalize_format fmt)

/-- Default output path of `VideoProcessor.convert` when no explicit output
path is given (video.py line 35), before the final `.resolve()` call, which
only rewrites the path to an absolute spelling of the same file. -/
def video_default_convert_path (p : PyPath) (fmt : String) : PyPath :=
  with_suffix p (normalize_format fmt)

/-- Encoder arguments of the `write_videofile` call in
`VideoProcessor.convert` (video.py lines 40-49). -/
structure VideoWriteArgs where
  codec : Option String
  bitrate : String
  preset : String
  audio_codec : String
  audio_bitrate : String
deriving DecidableEq

/-- Embeds `VideoProcessor.convert` (src/file_forge/converters/video.py):
returns the output path (before `.resolve()`) together with the encoder
arguments handed to the external transcode call.  The `quality` parameter
is accepted, exactly as in the source, and never read. -/
def video_convert (p : PyPath) (out : Option PyPath) (output_format : String)
    (quality : ℤ) : PyPath × VideoWriteArgs :=
  let f := normalize_format output_format
  let outPath := match out with
    | some o => o
    | none => with_suffix p f
  (outPath,
    { codec := if f = "mp4" then some "libx264" else none
      bitrate := "5000k"
      preset := "veryslow"
      audio_codec := "aac"
      audio_bitrate := "192k" })

/-- Embeds `ImageProcessor._resize_with_aspect_ratio`
(src/file_forge/converters/image.py lines 27-65), returning the dimensions
of the image handed back (the final `else` returns the image unchanged).
Python's float divisions are modelled exactly over `ℚ` and `int(...)` as
`pyInt`; `if max_width and max_height:` is Python truthiness. -/
def resize_with_aspect (ow oh : ℤ) (mw mh : Option ℤ) : ℤ × ℤ :=
  if pyTruthy mw && pyTruthy mh then
    let w := mw.getD 0
    let h := mh.getD 0
    let wr : ℚ := (w : ℚ) / (ow : ℚ)
    let hr : ℚ := (h : ℚ) / (oh : ℚ)
    let r := min wr hr
    (pyInt ((ow : ℚ) * r), pyInt ((oh : ℚ) * r))
  else if pyTruthy mw then
    let w := mw.getD 0
    let r : ℚ := (w : ℚ) / (ow : ℚ)
    (w, pyInt ((oh : ℚ) * r))
  else if pyTruthy mh then
    let h := mh.getD 0
    let r : ℚ := (h : ℚ) / (oh : ℚ)
    (pyInt ((ow : ℚ) * r), h)
  else
    (ow, oh)

/-- Value stored under the `"format"` key of a save-kwargs dict.  The PNG
branch of `ImageProcessor.convert` stores the one-element tuple `("PNG",)`
rather than a plain string; the distinction is kept. -/
inductive FormatVal where
  | str (s : String)
  | tuple1 (s : String)
deriving DecidableEq

/-- The keyword arguments assembled for `img.save` on the image save paths.
Absent keys are `none` / `false`. -/
structure SaveKwargs where
  format : Option FormatVal
  quality : Option ℤ
  optimize : Bool
  compress_level : Option ℕ
deriving DecidableEq

/-- Embeds the save-kwargs assembly of `ImageProcessor.convert`
(image.py lines 114-127): starts from `{"quality": quality,
"optimize": True}`, then branches on the normalized target token, popping
`quality` for `png` and `gif`. -/
def convert_save_kwargs (fmt : String) (quality : ℤ) : SaveKwargs :=
  if fmt = "jpg" ∨ fmt = "jpeg" then
    ⟨some (.str "JPEG"), some quality, true, none⟩
  else if fmt = "png" then
    ⟨some (.tuple1 "PNG"), none, true, none⟩
  else if fmt = "webp" then
    ⟨some (.str "WEBP"), some quality, true, none⟩
  else if fmt = "gif" then
    ⟨some (.str "GIF"), none, true, none⟩
  else
    ⟨some (.str ⟨fmt.data.map Char.toUpper⟩), some quality, true, none⟩

/-- Embeds the save-kwargs assembly of `ImageProcessor.compress`
(image.py lines 157-171): branches on the lower-cased input-path suffix
(with dot); any suffix other than `.jpg`/`.jpeg`/`.png`/`.webp` lands in
the final `else`, which sets `quality` and no `format` key. -/
def compress_save_kwargs (input_suffix : String) (quality : ℤ) : SaveKwargs :=
  if input_suffix = ".jpg" ∨ input_suffix = ".jpeg" then
    ⟨some (.str "JPEG"), some quality, true, none⟩
  else if input_suffix = ".png" then
    ⟨some (.str "PNG"), none, true, some 9⟩
  else if input_suffix = ".webp" then
    ⟨some (.str "WEBP"), some quality, true, none⟩
  else
    ⟨none, some quality, true, none⟩

/-- PIL's `MULDIV255` macro (`tmp = a*b + 128; ((tmp >> 8) + tmp) >> 8`),
the exact per-channel arithmetic behind `Image.paste` with an `L` mask. -/
def mulDiv255 (a b : ℕ) : ℕ :=
  ((a * b + 128) / 256 + (a * b + 128)) / 256

/-- PIL's `BLEND` macro: destination weighted by `255 - mask` plus source
weighted by `mask`. -/
def pil_blend (mask src dst : ℕ) : ℕ :=
  mulDiv255 dst (255 - mask) + mulDiv255 src mask

/-- One pixel of the input image in the modes the JPEG branch of
`ImageProcessor.convert` flattens: `RGBA`, `LA`, or palette-indexed `P`. -/
inductive PilPixel where
  | rgba (r g b a : ℕ)
  | la (l a : ℕ)
  | pal (idx : ℕ)

/-- Embeds the alpha-flattening branch of `ImageProcessor.convert`
(image.py lines 101-108) pixelwise: a white `RGB` image is created, a `P`
input is first promoted via `img.convert("RGBA")` (palette lookup, here
`palette : index → (r, g, b, a)`), and the image is pasted over white with
its last channel as mask, PIL blending each channel per `pil_blend`
(an `LA` source is promoted channelwise to `(l, l, l)` by the paste). -/
def flatten_onto_white (palette : ℕ → ℕ × ℕ × ℕ × ℕ) :
    PilPixel → ℕ × ℕ × ℕ
  | .rgba r g b a => (pil_blend a r 255, pil_blend a g 255, pil_blend a b 255)
  | .la l a => (pil_blend a l 255, pil_blend a l 255, pil_blend a l 255)
  | .pal i =>
      match palette i with
      | (r, g, b, a) =>
          (pil_blend a r 255, pil_blend a g 255, pil_blend a b 255)

/-- Which internal writer `DocumentProcessor.convert_document` dispatches
to; an `Except.ok` value means that writer runs and produces the output
file, `Except.error` means the `ValueError` is raised before any write. -/
inductive DocWriter where
  | pdfToTxt
  | docxToTxt
  | txtToDocx
deriving DecidableEq

/-- The constant tail of the `convert_document` error message naming the
supported set. -/
def legal_set_str : String :=
  "Supported conversions: PDF→TXT, DOCX→TXT, TXT→DOCX"

/-- Embeds `DocumentProcessor.convert_document`
(src/file_forge/converters/document.py lines 69-94).  `input_format` is
the constructor-normalized input suffix (`suffix.lower().replace(".", "")`);
the output token is normalized in the function itself. -/
def convert_document (input_format output_format : String) :
    Except String DocWriter :=
  if input_format = "pdf" ∧ normalize_format output_format = "txt" then
    .ok .pdfToTxt
  else if input_format = "docx" ∧ normalize_format output_format = "txt" then
    .ok .docxToTxt
  else if input_format = "txt" ∧ normalize_format output_format = "docx" then
    .ok .txtToDocx
  else
    .error ("Conversion from " ++ input_format ++ " to " ++
      normalize_format output_format ++ " is not supported yet. " ++
      legal_set_str)

/-- The effective end page of `extract_pdf_pages`: Python evaluates
`end_page if end_page else total_pages`, so `None` and the falsy `0` both
fall back to the page count. -/
def effective_end_page (end_page : Option ℤ) (total : ℤ) : ℤ :=
  match end_page with
  | some e => if e ≠ 0 then e else total
  | none => total

/-- Embeds `DocumentProcessor.extract_pdf_pages` (document.py lines
96-134) over an abstract page list.  `start_idx` is `start_page - 1` and
`end_idx` is `effective_end_page ... - 1`; the copy loop
`range(start_idx, end_idx + 1)` over `pdf_reader.pages[i]` is the
drop/take slice (empty when `end_idx + 1 ≤ start_idx`, as in Python). -/
def extract_pdf_pages {α : Type} (pages : List α) (start_page : ℤ)
    (end_page : Option ℤ) : Except String (List α) :=
  if start_page - 1 < 0 ∨ start_page - 1 ≥ (pages.length : ℤ) then
    .error ("Start page " ++ toString start_page ++ " is out of rang (1-" ++
      toString pages.length ++ ")")
  else if effective_end_page end_page (pages.length : ℤ) - 1 ≥
      (pages.length : ℤ) then
    .error ("End page " ++
      (match end_page with | some e => toString e | none => "None") ++
      " is out of range (1-" ++ toString pages.length ++ ")")
  else
    .ok ((pages.drop (start_page - 1).toNat).take
      ((effective_end_page end_page (pages.length : ℤ) - 1) + 1 -
        (start_page - 1)).toNat)

/-- Python whitespace as stripped by `str.strip()`. -/
def pyIsSpace (c : Char) : Bool :=
  c = ' ' ∨ c = '\t' ∨ c = '\n' ∨ c = '\r' ∨ c = '\x0b' ∨ c = '\x0c'

/-- Model of Python `str.strip()`: drop leading and trailing whitespace. -/
def py_strip (s : String) : String :=
  ⟨List.rdropWhile pyIsSpace (s.data.dropWhile pyIsSpace)⟩

/-- Model of Python `content.split("\n\n")`: leftmost non-overlapping
splitting on two consecutive newlines (`"a\n\n\n\nb" ↦ ["a", "", "b"]`,
`"a\n\n\nb" ↦ ["a", "\nb"]`). -/
def split2nl : List Char → List (List Char)
  | [] => [[]]
  | '\n' :: '\n' :: rest => [] :: split2nl rest
  | c :: rest =>
      match split2nl rest with
      | [] => [[c]]
      | h :: t => (c :: h) :: t

/-- Model of Python `content.split("\n\n")` on strings. -/
def py_split_blank (content : String) : List String :=
  (split2nl content.data).map (fun l => ⟨l⟩)

/-- Embeds `DocumentProcessor._txt_to_docx` (document.py lines 53-67):
the resulting DOCX is the ordered list of paragraph texts added by
`doc.add_paragraph(para_text.strip())` for each candidate whose strip is
truthy (nonempty). -/
def txt_to_docx (content : String) : List String :=
  ((py_split_blank content).map py_strip).filter (fun t => t ≠ "")

/-- Embeds `DocumentProcessor._docx_to_txt` (document.py lines 39-51):
paragraph texts whose strip is truthy are kept verbatim, in order, and
joined by blank lines; the DOCX is its ordered list of paragraph texts
(python-docx stores and returns paragraph text unchanged). -/
def docx_to_txt (paragraphs : List String) : String :=
  String.intercalate "\n\n" (paragraphs.filter (fun p => py_strip p ≠ ""))

/-- Helper: a string with a literal `"x"` spliced in the middle is never
empty. -/
theorem append_x_append_ne_empty (s t : String) : s ++ "x" ++ t ≠ "" := by
  intro H
  have h2 := congrArg String.data H
  simp [String.data_append] at h2

/-- Helper: the dimension tag built by `ImageProcessor.resize` is never
empty, hence always truthy. -/
theorem resize_dimension_str_ne_empty (w h : Option ℤ) :
    resize_dimension_str w h ≠ "" := by
  unfold resize_dimension_str
  exact append_x_append_ne_empty _ _

/-- C9: two video conversion requests on the same input and target format
that differ only in the requested quality produce the identical output
path and identical encoder configuration; `quality` is never read. -/
theorem c9_video_quality_ignored (p : PyPath) (out : Option PyPath)
    (fmt : String) (q₁ q₂ : ℤ) :
    video_convert p out fmt q₁ = video_convert p out fmt q₂ := rfl

/-- C10: whenever the normalized target format token equals the input
path's own extension (and the extension is nonempty, so the token is
truthy), the default format-conversion output path equals the input path
itself, for the image, document and video dispatchers alike — the
conversion overwrites its input. -/
theorem c10_default_path_overwrites_input (p : PyPath) (fmt : String)
    (hfmt : normalize_format fmt = p.ext) (hext : p.ext ≠ "") :
    image_default_convert_path p fmt = p ∧
    doc_default_convert_path p fmt = p ∧
    video_default_convert_path p fmt = p := by
  refine ⟨?_, ?_, ?_⟩ <;>
    simp [image_default_convert_path, doc_default_convert_path,
      video_default_convert_path, generate_output_path, with_suffix,
      pyTruthyStr, hfmt, hext]

/-- Witness for C10 at `pics/photo.jpg` converted to `"JPG"`. -/
theorem c10_default_path_overwrites_input_witness :
    normalize_format "JPG" = (PyPath.mk "pics" "photo" "jpg").ext ∧
    (PyPath.mk "pics" "photo" "jpg").ext ≠ "" ∧
    image_default_convert_path (PyPath.mk "pics" "photo" "jpg") "JPG" =
      PyPath.mk "pics" "photo" "jpg" :=
  ⟨by decide, by decide,
    (c10_default_path_overwrites_input (PyPath.mk "pics" "photo" "jpg") "JPG"
      (by decide) (by decide)).1⟩

/-- Counterexample to C6: on the compression save path a `.gif` input
falls into the generic `else` branch, so the requested quality is passed
to the encoder rather than dropped. -/
theorem c6_counterexample_gif_compress_quality :
    (compress_save_kwargs ".gif" 85).quality = some 85 ∧
    some (85 : ℤ) ≠ (none : Option ℤ) := by decide

/-- C6 (amended): on the format-conversion save path `png` and `gif` both
drop the quality parameter; on the compression save path `png` drops it,
but a `gif` input hits the generic branch and the quality is passed
through. -/
theorem c6_quality_dropped_png_gif (q : ℤ) :
    (convert_save_kwargs "png" q).quality = none ∧
    (convert_save_kwargs "gif" q).quality = none ∧
    (compress_save_kwargs ".png" q).quality = none ∧
    (compress_save_kwargs ".gif" q).quality = some q := by
  simp [convert_save_kwargs, compress_save_kwargs]

/-- Counterexample to C7: the dimension resolver raises nothing on zero or
negative bounds.  With both bounds `0` it returns the original dimensions
(`0` is falsy, so both bounds are treated as absent), and with
`max_width = 0`, `max_height = -5` the negative bound flows into the
arithmetic and the resolver returns output dimensions `(-10, -5)`. -/
theorem c7_counterexample_zero_negative_bounds :
    resize_with_aspect 100 50 (some 0) (some 0) = (100, 50) ∧
    resize_with_aspect 100 50 (some 0) (some (-5)) = (-10, -5) := by
  constructor
  · decide
  · norm_num [resize_with_aspect, pyTruthy, pyInt]
    rw [Int.ceil_eq_iff] <;> norm_num

/-- C7 (amended): the dimension resolver performs no bound validation and
never raises: a bound of `0` is Python-falsy and therefore treated exactly
as an absent bound on either axis, and negative bounds are used in the
ratio computation (possibly yielding non-positive output dimensions). -/
theorem c7_zero_bound_treated_as_absent (ow oh : ℤ) (mw mh : Option ℤ) :
    resize_with_aspect ow oh (some 0) mh = resize_with_aspect ow oh none mh ∧
    resize_with_aspect ow oh mw (some 0) = resize_with_aspect ow oh mw none := by
  constructor <;> simp [resize_with_aspect, pyTruthy]

/-- Counterexample to C8: rotating by angle `0` does not append
`_rotated_0`; the zero angle is Python-falsy, so the default path falls
through to the compression default `_compressed`. -/
theorem c8_counterexample_rotate_zero_angle :
    generate_output_path ⟨"", "photo", "jpg"⟩ none (some 0) none =
      ⟨"", "photo_compressed", "jpg"⟩ ∧
    (⟨"", "photo_compressed", "jpg"⟩ : PyPath) ≠
      ⟨"", "photo_rotated_0", "jpg"⟩ := by decide

/-- C8 (amended): with no explicit output path, format conversion with a
nonempty token replaces the input's extension with the target format;
compression appends `_compressed` before the extension; resize appends
`_resized_{width|auto}x{height|auto}` (the tag is always nonempty, hence
truthy); and rotation appends `_rotated_{angle}` for every nonzero angle,
while angle `0` falls through to the compression default. -/
theorem c8_default_output_paths (p : PyPath) (fmt dim : String) (a : ℤ)
    (w h : Option ℤ) :
    (fmt ≠ "" →
      generate_output_path p (some fmt) none none = with_suffix p fmt) ∧
    generate_output_path p none none none =
      { p with stem := p.stem ++ "_compressed" } ∧
    (dim ≠ "" →
      generate_output_path p none none (some dim) =
        { p with stem := p.stem ++ "_resized_" ++ dim }) ∧
    generate_output_path p none none (some (resize_dimension_str w h)) =
      { p with stem := p.stem ++ "_resized_" ++ resize_dimension_str w h } ∧
    (a ≠ 0 →
      generate_output_path p none (some a) none =
        { p with stem := p.stem ++ "_rotated_" ++ toString a }) := by
  refine ⟨fun hf => ?_, ?_, fun hd => ?_, ?_, fun ha => ?_⟩ <;>
    simp [generate_output_path, pyTruthyStr, pyTruthy, with_suffix, *,
      resize_dimension_str_ne_empty w h]

/-- Witness for C8 at `a.png`: conversion to `"webp"` and rotation by 90
degrees. -/
theorem c8_default_output_paths_witness :
    ("webp" ≠ "") ∧
    generate_output_path ⟨"", "a", "png"⟩ (some "webp") none none =
      with_suffix ⟨"", "a", "png"⟩ "webp" ∧
    ("800xauto" ≠ "") ∧
    generate_output_path ⟨"", "a", "png"⟩ none none (some "800xauto") =
      ⟨"", "a_resized_800xauto", "png"⟩ ∧
    ((90 : ℤ) ≠ 0) ∧
    generate_output_path ⟨"", "a", "png"⟩ none (some 90) none =
      ⟨"", "a_rotated_90", "png"⟩ := by
  have h := c8_default_output_paths ⟨"", "a", "png"⟩ "webp" "800xauto" 90
    none none
  refine ⟨by decide, h.1 (by decide), by decide, ?_, by decide, ?_⟩
  · rw [h.2.2.1 (by decide)]
    decide
  · rw [h.2.2.2.2 (by decide)]
    decide

/-- C1: for positive original dimensions and positive bounds on both axes,
the resolver computes the minimum of the two axis ratios and truncates
`original * ratio` on each axis, so the output width never exceeds
`max_width` and the output height never exceeds `max_height`; in
particular a 1000x500 image bounded by 400x400 resolves to 400x200. -/
theorem c1_resize_fits_both_bounds (ow oh mw mh : ℤ)
    (how : 0 < ow) (hoh : 0 < oh) (hmw : 0 < mw) (hmh : 0 < mh) :
    resize_with_aspect ow oh (some mw) (some mh) =
      (pyInt ((ow : ℚ) * min ((mw : ℚ) / (ow : ℚ)) ((mh : ℚ) / (oh : ℚ))),
       pyInt ((oh : ℚ) * min ((mw : ℚ) / (ow : ℚ)) ((mh : ℚ) / (oh : ℚ)))) ∧
    (resize_with_aspect ow oh (some mw) (some mh)).1 ≤ mw ∧
    (resize_with_aspect ow oh (some mw) (some mh)).2 ≤ mh ∧
    resize_with_aspect 1000 500 (some 400) (some 400) = (400, 200) := by
  have hq_ow : (0 : ℚ) < (ow : ℚ) := by exact_mod_cast how
  have hq_oh : (0 : ℚ) < (oh : ℚ) := by exact_mod_cast hoh
  have hq_mw : (0 : ℚ) ≤ (mw : ℚ) := by exact_mod_cast hmw.le
  have hq_mh : (0 : ℚ) ≤ (mh : ℚ) := by exact_mod_cast hmh.le
  set r : ℚ := min ((mw : ℚ) / (ow : ℚ)) ((mh : ℚ) / (oh : ℚ)) with hr
  have hr0 : 0 ≤ r :=
    le_min (div_nonneg hq_mw hq_ow.le) (div_nonneg hq_mh hq_oh.le)
  have heq : resize_with_aspect ow oh (some mw) (some mh) =
      (pyInt ((ow : ℚ) * r), pyInt ((oh : ℚ) * r)) := by
    simp [resize_with_aspect, pyTruthy, hmw.ne', hmh.ne', hr]
  have hwb : (ow : ℚ) * r ≤ (mw : ℚ) := by
    have h1 : (ow : ℚ) * r ≤ (ow : ℚ) * ((mw : ℚ) / (ow : ℚ)) :=
      mul_le_mul_of_nonneg_left (min_le_left _ _) hq_ow.le
    have h2 : (ow : ℚ) * ((mw : ℚ) / (ow : ℚ)) = (mw : ℚ) := by
      field_simp
    linarith
  have hhb : (oh : ℚ) * r ≤ (mh : ℚ) := by
    have h1 : (oh : ℚ) * r ≤ (oh : ℚ) * ((mh : ℚ) / (oh : ℚ)) :=
      mul_le_mul_of_nonneg_left (min_le_right _ _) hq_oh.le
    have h2 : (oh : ℚ) * ((mh : ℚ) / (oh : ℚ)) = (mh : ℚ) := by
      field_simp
    linarith
  have hw_int : pyInt ((ow : ℚ) * r) ≤ mw := by
    rw [pyInt, if_pos (mul_nonneg hq_ow.le hr0)]
    calc ⌊(ow : ℚ) * r⌋ ≤ ⌊(mw : ℚ)⌋ := Int.floor_mono hwb
    _ = mw := Int.floor_intCast mw
  have hh_int : pyInt ((oh : ℚ) * r) ≤ mh := by
    rw [pyInt, if_pos (mul_nonneg hq_oh.le hr0)]
    calc ⌊(oh : ℚ) * r⌋ ≤ ⌊(mh : ℚ)⌋ := Int.floor_mono hhb
    _ = mh := Int.floor_intCast mh
  have hmin : min ((400 : ℚ) / 1000) ((400 : ℚ) / 500) = 2 / 5 := by
    rw [min_eq_left] <;> norm_num
  have hconc : resize_with_aspect 1000 500 (some 400) (some 400) = (400, 200) := by
    simp only [resize_with_aspect, pyTruthy]
    norm_num [hmin, pyInt]
  exact ⟨heq, by rw [heq]; exact hw_int, by rw [heq]; exact hh_int, hconc⟩

/-- Witness for C1 at the spec's example `1000x500` bounded by `400x400`. -/
theorem c1_resize_fits_both_bounds_witness :
    (0 : ℤ) < 1000 ∧ (0 : ℤ) < 500 ∧ (0 : ℤ) < 400 ∧
    (resize_with_aspect 1000 500 (some 400) (some 400)).1 ≤ 400 ∧
    (resize_with_aspect 1000 500 (some 400) (some 400)).2 ≤ 400 := by
  have h := c1_resize_fits_both_bounds 1000 500 400 400 (by decide)
    (by decide) (by decide) (by decide)
  exact ⟨by decide, by decide, by decide, h.2.1, h.2.2.1⟩

/-- Helper: blending against weight `0` contributes nothing. -/
theorem mulDiv255_right_zero (a : ℕ) : mulDiv255 a 0 = 0 := by
  simp [mulDiv255]

/-- Helper: blending against weight `255` returns the channel unchanged
for any 8-bit channel value. -/
theorem mulDiv255_right_255 (a : ℕ) (h : a ≤ 255) : mulDiv255 a 255 = a := by
  unfold mulDiv255
  omega

/-- Helper: with mask `0` the paste keeps the destination pixel. -/
theorem pil_blend_mask_zero (src dst : ℕ) (h : dst ≤ 255) :
    pil_blend 0 src dst = dst := by
  unfold pil_blend
  rw [mulDiv255_right_zero, Nat.sub_zero, mulDiv255_right_255 dst h]
  omega

/-- Helper: with mask `255` the paste keeps the source pixel. -/
theorem pil_blend_mask_255 (src dst : ℕ) (h : src ≤ 255) :
    pil_blend 255 src dst = src := by
  unfold pil_blend
  rw [Nat.sub_self, mulDiv255_right_zero, mulDiv255_right_255 src h]
  omega

/-- C5: for every image mode carrying transparency or a palette (`RGBA`,
`LA`, `P`), the JPEG conversion branch composites the pixel over a white
background (promoting a palette index to full color+alpha first): a fully
transparent pixel becomes pure white `(255, 255, 255)`, and a fully opaque
pixel keeps its RGB channels. -/
theorem c5_jpeg_flatten_white (palette : ℕ → ℕ × ℕ × ℕ × ℕ)
    (r g b l : ℕ) (hr : r ≤ 255) (hg : g ≤ 255) (hb : b ≤ 255)
    (hl : l ≤ 255) :
    flatten_onto_white palette (.rgba r g b 0) = (255, 255, 255) ∧
    flatten_onto_white palette (.rgba r g b 255) = (r, g, b) ∧
    flatten_onto_white palette (.la l 0) = (255, 255, 255) ∧
    flatten_onto_white palette (.la l 255) = (l, l, l) ∧
    (∀ i, palette i = (r, g, b, 0) →
      flatten_onto_white palette (.pal i) = (255, 255, 255)) ∧
    (∀ i, palette i = (r, g, b, 255) →
      flatten_onto_white palette (.pal i) = (r, g, b)) := by
  have w255 : (255 : ℕ) ≤ 255 := le_refl 255
  refine ⟨?_, ?_, ?_, ?_, fun i hi => ?_, fun i hi => ?_⟩
  · simp [flatten_onto_white, pil_blend_mask_zero _ _ w255]
  · simp [flatten_onto_white, pil_blend_mask_255 _ _ hr,
      pil_blend_mask_255 _ _ hg, pil_blend_mask_255 _ _ hb]
  · simp [flatten_onto_white, pil_blend_mask_zero _ _ w255]
  · simp [flatten_onto_white, pil_blend_mask_255 _ _ hl]
  · simp [flatten_onto_white, hi, pil_blend_mask_zero _ _ w255]
  · simp [flatten_onto_white, hi, pil_blend_mask_255 _ _ hr,
      pil_blend_mask_255 _ _ hg, pil_blend_mask_255 _ _ hb]

/-- Witness for C5: a concrete palette sending index 7 to transparent
red, checked on RGBA, LA and P pixels. -/
theorem c5_jpeg_flatten_white_witness :
    flatten_onto_white (fun _ => (200, 10, 30, 0)) (.rgba 200 10 30 255) =
      (200, 10, 30) ∧
    flatten_onto_white (fun _ => (200, 10, 30, 0)) (.la 40 0) =
      (255, 255, 255) ∧
    flatten_onto_white (fun _ => (200, 10, 30, 0)) (.pal 7) =
      (255, 255, 255) := by
  have h := c5_jpeg_flatten_white (fun _ => (200, 10, 30, 0)) 200 10 30 40
    (by decide) (by decide) (by decide) (by decide)
  exact ⟨h.2.1, h.2.2.1, h.2.2.2.2.1 7 rfl⟩

/-- C3: document conversion succeeds exactly for the pairs (pdf, txt),
(docx, txt) and (txt, docx) over the normalized output token; every other
pair produces an `UnsupportedConversion` error whose message names the
legal set, and no writer runs (so nothing is written). -/
theorem c3_document_pairs (i o : String) :
    ((convert_document i o).isOk = true ↔
      ((i = "pdf" ∧ normalize_format o = "txt") ∨
       (i = "docx" ∧ normalize_format o = "txt") ∨
       (i = "txt" ∧ normalize_format o = "docx"))) ∧
    (∀ msg, convert_document i o = .error msg →
      ∃ pre, msg = pre ++ legal_set_str) := by
  unfold convert_document
  constructor
  · split_ifs with h1 h2 h3 <;> simp_all [Except.isOk, Except.toBool]
  · intro msg hmsg
    split_ifs at hmsg with h1 h2 h3
    cases hmsg
    exact ⟨"Conversion from " ++ i ++ " to " ++ normalize_format o ++
      " is not supported yet. ", rfl⟩

/-- Witness for C3 at the unsupported pair (pdf, pdf): the error message
carries the legal set. -/
theorem c3_document_pairs_witness :
    convert_document "pdf" "pdf" =
      .error ("Conversion from pdf to pdf is not supported yet. " ++
        legal_set_str) ∧
    ∃ pre,
      ("Conversion from pdf to pdf is not supported yet. " ++ legal_set_str) =
        pre ++ legal_set_str := by
  have hn : normalize_format "pdf" = "pdf" := by decide
  have he : convert_document "pdf" "pdf" =
      .error ("Conversion from pdf to pdf is not supported yet. " ++
        legal_set_str) := by
    simp only [convert_document, hn]
    simp only [Except.error.injEq, reduceIte, String.reduceEq,
      and_self, and_false, false_and, if_false]
    decide
  exact ⟨he, (c3_document_pairs "pdf" "pdf").2 _ he⟩

/-- Helper: a stripped list has no leading stripped character, so a second
leading pass after removing trailing characters changes nothing. -/
theorem dropWhile_rdropWhile_dropWhile (p : Char → Bool) (l : List Char) :
    List.dropWhile p (List.rdropWhile p (List.dropWhile p l)) =
      List.rdropWhile p (List.dropWhile p l) := by
  apply List.dropWhile_eq_self_iff.mpr
  intro hl
  obtain ⟨t, ht⟩ := List.rdropWhile_prefix p (List.dropWhile p l)
  have hl1 : 0 < (List.dropWhile p l).length := by
    rw [← ht, List.length_append]
    omega
  have hpre : List.rdropWhile p (List.dropWhile p l) <+: List.dropWhile p l :=
    List.rdropWhile_prefix p _
  rw [List.IsPrefix.get_eq hpre hl]
  exact List.dropWhile_get_zero_not p l _

/-- Helper: Python `strip` is idempotent. -/
theorem py_strip_idem (s : String) : py_strip (py_strip s) = py_strip s := by
  unfold py_strip
  show (⟨List.rdropWhile pyIsSpace
      (List.dropWhile pyIsSpace
        (List.rdropWhile pyIsSpace
          (List.dropWhile pyIsSpace s.data)))⟩ : String) =
    ⟨List.rdropWhile pyIsSpace (List.dropWhile pyIsSpace s.data)⟩
  rw [dropWhile_rdropWhile_dropWhile, List.rdropWhile_idempotent]

/-- C2: converting TXT to DOCX (split on blank lines, trim each candidate,
drop empties, one paragraph per survivor, in order) and back to TXT
reproduces exactly the original's non-empty trimmed paragraphs, in order,
joined by blank lines. -/
theorem c2_txt_docx_roundtrip (content : String) :
    docx_to_txt (txt_to_docx content) =
      String.intercalate "\n\n"
        (((py_split_blank content).map py_strip).filter
          (fun t => t ≠ "")) := by
  unfold docx_to_txt txt_to_docx
  congr 1
  apply List.filter_eq_self.mpr
  intro a ha
  have hmem := List.mem_filter.mp ha
  obtain ⟨y, hy, hstrip⟩ := List.mem_map.mp hmem.1
  have hne := hmem.2
  subst hstrip
  simpa [py_strip_idem] using hne

/-- Helper: the extraction errs exactly when the start page is below 1 or
beyond the page count, or a truthy (nonzero) end bound exceeds the page
count. -/
theorem extract_err_iff {α : Type} (pages : List α) (sp : ℤ)
    (ep : Option ℤ) :
    ((extract_pdf_pages pages sp ep).isOk = false ↔
      sp < 1 ∨ sp > (pages.length : ℤ) ∨
        ∃ e, ep = some e ∧ e ≠ 0 ∧ e > (pages.length : ℤ)) := by
  unfold extract_pdf_pages
  rcases ep with _ | e
  · split_ifs with h1 h2 <;>
      simp_all [Except.isOk, Except.toBool, effective_end_page] <;> omega
  · by_cases he : e = 0 <;>
      split_ifs with h1 h2 <;>
      simp_all [Except.isOk, Except.toBool, effective_end_page] <;> omega

/-- Helper: on success, element `k` of the output is page
`start_idx + k` of the input while `k` stays below the copied count, and
nothing beyond. -/
theorem extract_ok_get {α : Type} (pages : List α) (sp : ℤ) (ep : Option ℤ)
    (l : List α) (h : extract_pdf_pages pages sp ep = .ok l) (k : ℕ) :
    l.get? k =
      if (k : ℤ) < effective_end_page ep (pages.length : ℤ) + 1 - sp then
        pages.get? ((sp - 1).toNat + k)
      else none := by
  unfold extract_pdf_pages at h
  split_ifs at h with h1 h2
  injection h with hl
  subst hl
  by_cases hk : (k : ℤ) < effective_end_page ep (pages.length : ℤ) + 1 - sp
  · rw [if_pos hk]
    have hkn : k < ((effective_end_page ep (pages.length : ℤ) - 1) + 1 -
        (sp - 1)).toNat := by omega
    rw [List.get?_take hkn, List.get?_drop]
  · rw [if_neg hk]
    apply List.get?_eq_none.mpr
    calc ((pages.drop (sp - 1).toNat).take
        ((effective_end_page ep (pages.length : ℤ) - 1) + 1 -
          (sp - 1)).toNat).length ≤
        ((effective_end_page ep (pages.length : ℤ) - 1) + 1 -
          (sp - 1)).toNat := by
          rw [List.length_take]
          exact min_le_left _ _
    _ ≤ k := by omega

/-- Helper: `start_page = 1` with no end bound copies every page of a
nonempty document in order. -/
theorem extract_full_copy {α : Type} (pages : List α) (hne : pages ≠ []) :
    extract_pdf_pages pages 1 none = .ok pages := by
  have hlen : 0 < pages.length := List.length_pos.mpr hne
  unfold extract_pdf_pages
  have h1 : ¬((1 : ℤ) - 1 < 0 ∨ (1 : ℤ) - 1 ≥ (pages.length : ℤ)) := by
    omega
  have h2 : ¬(effective_end_page none (pages.length : ℤ) - 1 ≥
      (pages.length : ℤ)) := by
    simp [effective_end_page]
  rw [if_neg h1, if_neg h2]
  simp [effective_end_page]

/-- C4 (amended): extraction raises `PageOutOfRange` exactly when
`start_page < 1`, `start_page > total_pages`, or a given nonzero
`end_page` exceeds `total_pages` (an `end_page` of `0` is falsy in Python
and treated as if absent, defaulting to the last page); otherwise it
copies pages `start_page` through the effective end page inclusive, in
order; in particular `start_page = 1` with `end_page = None` on a
nonempty document yields all pages in input order. -/
theorem c4_extract_pdf_pages_spec {α : Type} (pages : List α) (sp : ℤ)
    (ep : Option ℤ) :
    ((extract_pdf_pages pages sp ep).isOk = false ↔
      sp < 1 ∨ sp > (pages.length : ℤ) ∨
        ∃ e, ep = some e ∧ e ≠ 0 ∧ e > (pages.length : ℤ)) ∧
    (∀ l, extract_pdf_pages pages sp ep = .ok l → ∀ k : ℕ,
      l.get? k =
        if (k : ℤ) < effective_end_page ep (pages.length : ℤ) + 1 - sp then
          pages.get? ((sp - 1).toNat + k)
        else none) ∧
    (pages ≠ [] → extract_pdf_pages pages 1 none = .ok pages) :=
  ⟨extract_err_iff pages sp ep,
   fun l h k => extract_ok_get pages sp ep l h k,
   fun hne => extract_full_copy pages hne⟩

/-- Counterexample to C4: with `end_page = 0` the claim says pages 1
through 0 inclusive (none) are copied, but the code treats the falsy `0`
as an absent bound and copies every page. -/
theorem c4_counterexample_end_page_zero :
    extract_pdf_pages [10, 20, 30] 1 (some 0) = .ok [10, 20, 30] ∧
    (.ok [10, 20, 30] : Except String (List ℕ)) ≠ .ok [] := by
  constructor
  · rfl
  · intro H
    injection H with h
    cases h

/-- Witness for C4: `start_page = 5` on a 3-page document errs, and
`start_page = 1` with no end bound copies all three pages. -/
theorem c4_extract_pdf_pages_spec_witness :
    (extract_pdf_pages ([10, 20, 30] : List ℕ) 5 none).isOk = false ∧
    extract_pdf_pages ([10, 20, 30] : List ℕ) 1 none = .ok [10, 20, 30] := by
  constructor
  · exact (c4_extract_pdf_pages_spec ([10, 20, 30] : List ℕ) 5 none).1.mpr
      (Or.inr (Or.inl (by decide)))
  · exact (c4_extract_pdf_pages_spec ([10, 20, 30] : List ℕ) 1 none).2.2
      (by decide)
